import Mathlib

/-
Verification of the BigDefend AI alert pipeline against its specification.

The definitions below are a shallow embedding of the repository code:
- the frontend React hooks and auth context (useRealTimeData, AuthContext,
  mockData) written in TypeScript, and
- the FastAPI backend routers (transaction.py, alerts.py) embedded from the
  Python code shown in the repository documentation.

Scores and probabilities are modelled as rationals, JavaScript/Python string
truthiness is modelled explicitly, and the relational database is modelled as
a list of records with autoincrementing integer keys.
-/

set_option autoImplicit false

namespace BigDefend

/-! ## Frontend data model (src/types/index.ts) -/

/-- Frontend `User` record (`src/types/index.ts`). `bankId`/`bankName` are
optional fields (`bankId?: string`), modelled as `Option String`. -/
structure User where
  id : String
  email : String
  name : String
  role : String
  bankId : Option String
  bankName : Option String
  isActive : Bool
  createdAt : String
  deriving Repr, DecidableEq

/-- Frontend `FraudAlert` record (`src/types/index.ts`). `fraudProbability`
and `aiConfidence` are numbers, modelled as rationals. -/
structure FraudAlert where
  id : String
  transactionId : String
  bankId : String
  severity : String
  type : String
  description : String
  timestamp : String
  status : String
  assignedTo : Option String
  fraudProbability : ℚ
  aiConfidence : ℚ
  recommendedAction : String
  deriving Repr, DecidableEq

/-- Frontend `Transaction` record (`src/types/index.ts`). Numeric fields are
rationals; the open-ended `features: Record<string, any>` map is modelled as
a string-keyed association list. -/
structure Transaction where
  id : String
  amount : ℚ
  currency : String
  timestamp : String
  fromAccount : String
  toAccount : String
  type : String
  status : String
  riskScore : ℚ
  fraudProbability : ℚ
  location : String
  deviceInfo : String
  bankId : String
  isBlocked : Bool
  blockedBy : Option String
  blockedAt : Option String
  features : List (String × String)
  deriving Repr, DecidableEq

/-! ## Mock users (src/services/mockData.ts, `mockUsers`) -/

/-- The three built-in demo users of `mockData.ts`. -/
def mockUsers : List User :=
  [ { id := "1", email := "admin@bigdefend.ai", name := "Admin BigDefend",
      role := "admin", bankId := none, bankName := none,
      isActive := true, createdAt := "2024-01-01T00:00:00Z" },
    { id := "2", email := "analyst@bnp.fr", name := "Jean Dupont",
      role := "analyst", bankId := some "bnp", bankName := some "BNP Paribas",
      isActive := true, createdAt := "2024-01-02T00:00:00Z" },
    { id := "3", email := "client@bnp.fr", name := "Marie Martin",
      role := "client", bankId := some "bnp", bankName := some "BNP Paribas",
      isActive := true, createdAt := "2024-01-03T00:00:00Z" } ]

/-! ## Visibility filtering (src/hooks/useRealTimeData.ts, `loadInitialData`)

`loadInitialData` computes
  `const bankId = user.role === 'admin' ? undefined : user.bankId;`
and then filters the mock alert list with
  `bankId ? mockAlerts.filter(alert => alert.bankId === bankId) : mockAlerts`.
A JavaScript `undefined` or empty-string `bankId` is falsy, in which case no
filter is applied at all. -/

/-- The bank-scope key `loadInitialData` derives from the viewer:
`undefined` (none) for an admin, otherwise the viewer's own `bankId`. -/
def bankIdForViewer (u : User) : Option String :=
  if u.role = "admin" then none else u.bankId

/-- JavaScript truthiness of the derived `bankId`: `undefined` and `""` are
falsy. -/
def bankIdTruthy : Option String → Bool
  | none => false
  | some s => !(s == "")

/-- The alert list a viewer receives from `loadInitialData` (mock branch):
filtered by `alert.bankId === bankId` only when the derived `bankId` is
truthy. -/
def visibleAlerts (u : User) (alerts : List FraudAlert) : List FraudAlert :=
  match bankIdForViewer u with
  | none => alerts
  | some b => if b == "" then alerts else alerts.filter (fun a => a.bankId == b)

/-- The per-alert visibility predicate this filtering realizes: the decision
`loadInitialData` makes for one alert and one viewer. -/
def canSee (u : User) (a : FraudAlert) : Bool :=
  match bankIdForViewer u with
  | none => true
  | some b => if b == "" then true else a.bankId == b

/-- `visibleAlerts` is exactly the pointwise filter by `canSee`. -/
theorem visibleAlerts_eq_filter_canSee (u : User) (alerts : List FraudAlert) :
    visibleAlerts u alerts = alerts.filter (canSee u) := by
  unfold visibleAlerts canSee
  cases bankIdForViewer u with
  | none => simp
  | some b =>
      by_cases hb : b == ""
      · simp [hb]
      · simp [hb]

/-- A sample alert in tenant `bnp`, not attributable to any particular client
account (the frontend alert record carries no owner beyond `bankId`). -/
def alertBnp : FraudAlert :=
  { id := "alert_1", transactionId := "tx_1", bankId := "bnp",
    severity := "high", type := "Suspicious Transaction",
    description := "Transaction flagged by AI model",
    timestamp := "2024-01-05T00:00:00Z", status := "open",
    assignedTo := none, fraudProbability := 92/100, aiConfidence := 3/4,
    recommendedAction := "investigate" }

/-- The demo client-role viewer (Marie Martin, tenant `bnp`). -/
def clientViewer : User :=
  { id := "3", email := "client@bnp.fr", name := "Marie Martin",
    role := "client", bankId := some "bnp", bankName := some "BNP Paribas",
    isActive := true, createdAt := "2024-01-03T00:00:00Z" }

/-- The demo analyst-role viewer (Jean Dupont, tenant `bnp`). -/
def analystViewer : User :=
  { id := "2", email := "analyst@bnp.fr", name := "Jean Dupont",
    role := "analyst", bankId := some "bnp", bankName := some "BNP Paribas",
    isActive := true, createdAt := "2024-01-02T00:00:00Z" }

/-- C1 counterexample: a client-role viewer whose tenant matches an alert
that is not attributable to their own account nevertheless has
`canSee = true` — the claim says `canSee` must return `false` here. -/
theorem canSee_client_tenant_match_true :
    clientViewer.role = "client" ∧ clientViewer.bankId = some alertBnp.bankId ∧
    alertBnp.assignedTo = none ∧ canSee clientViewer alertBnp = true := by
  refine ⟨rfl, rfl, rfl, ?_⟩
  decide

/-- C1 amended: visibility is purely tenant-scoped. Any non-admin viewer
(client or analyst alike) whose `bankId` equals the alert's `bankId` can see
the alert; there is no self-ownership narrowing for the client role. -/
theorem canSee_tenant_only (u : User) (a : FraudAlert)
    (hrole : u.role = "analyst" ∨ u.role = "client")
    (hb : u.bankId = some a.bankId) :
    canSee u a = true := by
  have hadmin : u.role ≠ "admin" := by
    rcases hrole with h | h <;> simp [h]
  unfold canSee bankIdForViewer
  simp only [if_neg hadmin, hb]
  by_cases h0 : a.bankId == ""
  · simp [h0]
  · simp [h0]

/-- Witness for `canSee_tenant_only`: instantiated at the demo client viewer
and the sample tenant-matching alert. -/
theorem canSee_tenant_only_witness :
    (clientViewer.role = "analyst" ∨ clientViewer.role = "client") ∧
    clientViewer.bankId = some alertBnp.bankId ∧
    canSee clientViewer alertBnp = true :=
  ⟨Or.inr rfl, rfl, canSee_tenant_only clientViewer alertBnp (Or.inr rfl) rfl⟩

/-! ## Backend alert model and status update
(bdia-BackEND/app/models/alert.py, app/schemas/alert.py,
app/routers/alerts.py, embedded from the repository documentation)

The SQLAlchemy `Alert` model has columns `id`, `transaction_id`,
`banque_id`, `fraud_probability`, `message`, `status` (default `"open"`)
and `date`; the update endpoint additionally writes an `assigned_to`
attribute carried by the `AlertUpdate` schema. -/

/-- Backend `Alert` database row. `fraud_probability` is a rational,
`date` an abstract timestamp. -/
structure BackAlert where
  id : Nat
  transaction_id : Nat
  banque_id : Nat
  fraud_probability : ℚ
  message : String
  status : String
  assigned_to : Option String
  date : Nat
  deriving Repr, DecidableEq

/-- Backend `AlertUpdate` request schema: both fields optional
(`status: str | None`, `assigned_to: str | None`). -/
structure AlertUpdate where
  status : Option String
  assigned_to : Option String
  deriving Repr, DecidableEq

/-- Python truthiness of an optional string: `None` and `""` are falsy.
The endpoint guards both updates with `if alert_update.status:` and
`if alert_update.assigned_to:`. -/
def pyTruthy : Option String → Bool
  | none => false
  | some s => !(s == "")

/-- The field mutation `update_alert_status` performs on the fetched row:
set `status` when the request carries a truthy status, set `assigned_to`
when it carries a truthy assignee, leave everything else alone. -/
def applyAlertUpdate (upd : AlertUpdate) (a : BackAlert) : BackAlert :=
  let a1 := if pyTruthy upd.status then { a with status := upd.status.getD a.status } else a
  if pyTruthy upd.assigned_to then { a1 with assigned_to := upd.assigned_to } else a1

/-- Result of the `PUT /alerts/{alert_id}/status` endpoint: 403 when the
caller is neither analyst nor admin, 404 when no alert row matches, or the
updated row. -/
inductive UpdateResult where
  | forbidden
  | notFound
  | ok (a : BackAlert)
  deriving Repr, DecidableEq

/-- Committing the mutated row: replace the row whose primary key matches
(rows are keyed by `id`; `first()` fetches the first match). -/
def replaceById (i : Nat) (a : BackAlert) : List BackAlert → List BackAlert
  | [] => []
  | x :: rest => if x.id == i then a :: rest else x :: replaceById i a rest

/-- `update_alert_status` (app/routers/alerts.py): authorization check via
`get_analyst_or_admin_user`, row fetch by `Alert.id == alert_id`, field
update, commit. Returns the endpoint result and the post-commit table. -/
def update_alert_status (role : String) (alert_id : Nat) (upd : AlertUpdate)
    (db : List BackAlert) : UpdateResult × List BackAlert :=
  if role ≠ "analyst" ∧ role ≠ "admin" then (.forbidden, db)
  else
    match db.find? (fun a => a.id == alert_id) with
    | none => (.notFound, db)
    | some a =>
        let a1 := applyAlertUpdate upd a
        (.ok a1, replaceById alert_id a1 db)

/-- After replacing the first row with key `i`, a lookup by key `i` returns
the replacement row. -/
theorem find?_replaceById (i : Nat) (a1 : BackAlert) :
    ∀ (db : List BackAlert) (a : BackAlert),
      db.find? (fun x => x.id == i) = some a → (a1.id == i) = true →
      (replaceById i a1 db).find? (fun x => x.id == i) = some a1
  | [], a, h, _ => by simp [List.find?] at h
  | x :: rest, a, h, h1 => by
      cases hx : (x.id == i) with
      | true =>
          simp only [replaceById, hx, if_pos]
          simp [List.find?, h1]
      | false =>
          simp only [replaceById, hx, Bool.false_eq_true, if_neg, not_false_iff]
          rw [List.find?] at h
          rw [hx] at h
          rw [List.find?, hx]
          exact find?_replaceById i a1 rest a h h1

/-- The replacement row is a member of the post-commit table whenever the
lookup that produced it succeeded. -/
theorem mem_replaceById (i : Nat) (a1 : BackAlert) :
    ∀ (db : List BackAlert) (a : BackAlert),
      db.find? (fun x => x.id == i) = some a →
      a1 ∈ replaceById i a1 db
  | [], a, h => by simp [List.find?] at h
  | x :: rest, a, h => by
      cases hx : (x.id == i) with
      | true =>
          simp [replaceById, hx]
      | false =>
          simp only [replaceById, hx, Bool.false_eq_true, if_neg, not_false_iff]
          rw [List.find?] at h
          rw [hx] at h
          exact List.mem_cons_of_mem x (mem_replaceById i a1 rest a h)

/-- A one-row table holding a terminal (`resolved`) alert. -/
def resolvedAlert : BackAlert :=
  { id := 1, transaction_id := 10, banque_id := 2,
    fraud_probability := 9/10,
    message := "Transaction suspecte detectee avec une probabilite de 0.90",
    status := "resolved", assigned_to := none, date := 0 }

/-- C2 counterexample: the pair (`resolved`, `open`) is outside the allowed
edge set (it leaves a terminal state), yet the update succeeds and mutates
the stored alert — the endpoint performs no transition validation. -/
theorem update_leaves_terminal_state :
    (update_alert_status "analyst" 1 ⟨some "open", none⟩ [resolvedAlert]).1 =
      .ok { resolvedAlert with status := "open" } ∧
    (update_alert_status "analyst" 1 ⟨some "open", none⟩ [resolvedAlert]).2 =
      [{ resolvedAlert with status := "open" }] := by
  constructor <;> rfl

/-- C2 amended: `update_alert_status` validates no transition edge at all.
For any analyst/admin caller, any stored alert found by id, and any
non-empty target status — allowed edge or not, terminal source or not —
the call succeeds, returns the alert with exactly the requested status,
and commits that row. -/
theorem update_alert_status_no_validation (role : String) (i : Nat)
    (s : String) (db : List BackAlert) (a : BackAlert)
    (hrole : role = "analyst" ∨ role = "admin")
    (hfind : db.find? (fun x => x.id == i) = some a)
    (hs : s ≠ "") :
    (update_alert_status role i ⟨some s, none⟩ db).1 = .ok { a with status := s } ∧
    { a with status := s } ∈ (update_alert_status role i ⟨some s, none⟩ db).2 := by
  have hauth : ¬(role ≠ "analyst" ∧ role ≠ "admin") := by
    rcases hrole with h | h <;> simp [h]
  have happ : applyAlertUpdate ⟨some s, none⟩ a = { a with status := s } := by
    simp [applyAlertUpdate, pyTruthy, hs]
  unfold update_alert_status
  rw [if_neg hauth, hfind]
  refine ⟨by simp [happ], ?_⟩
  simpa [happ] using mem_replaceById i { a with status := s } db a hfind

/-- Witness for `update_alert_status_no_validation`: the terminal-state
escape `resolved → open` on the concrete one-row table. -/
theorem update_alert_status_no_validation_witness :
    (("analyst" : String) = "analyst" ∨ ("analyst" : String) = "admin") ∧
    [resolvedAlert].find? (fun x => x.id == 1) = some resolvedAlert ∧
    ("open" : String) ≠ "" ∧
    (update_alert_status "analyst" 1 ⟨some "open", none⟩ [resolvedAlert]).1 =
      .ok { resolvedAlert with status := "open" } :=
  ⟨Or.inl rfl, rfl, by decide,
    (update_alert_status_no_validation "analyst" 1 "open" [resolvedAlert]
      resolvedAlert (Or.inl rfl) rfl (by decide)).1⟩

/-- Helper: a status-only update by an authorized caller on a found row is
fully determined — it returns the row with the new status and commits it. -/
theorem update_status_eq (role : String) (i : Nat) (s : String)
    (db : List BackAlert) (a : BackAlert)
    (hauth : ¬(role ≠ "analyst" ∧ role ≠ "admin"))
    (hfind : db.find? (fun x => x.id == i) = some a)
    (hs : (s == "") = false) :
    update_alert_status role i ⟨some s, none⟩ db =
      (.ok { a with status := s }, replaceById i { a with status := s } db) := by
  unfold update_alert_status
  rw [if_neg hauth, hfind]
  simp [applyAlertUpdate, pyTruthy, hs]

/-- A one-row table holding a fresh `open` alert. -/
def openAlert : BackAlert :=
  { id := 1, transaction_id := 10, banque_id := 2,
    fraud_probability := 9/10,
    message := "Transaction suspecte detectee avec une probabilite de 0.90",
    status := "open", assigned_to := none, date := 0 }

/-- C3 counterexample: the endpoint takes no `expectedVersion` and performs
no version check. Two successive updates against the same initial snapshot
both succeed (neither receives any conflict), and the second silently
overwrites the first — the first update is lost from the stored row. -/
theorem double_update_both_succeed :
    (update_alert_status "analyst" 1 ⟨some "investigating", none⟩ [openAlert]).1 =
      .ok { openAlert with status := "investigating" } ∧
    (update_alert_status "analyst" 1 ⟨some "resolved", none⟩
        (update_alert_status "analyst" 1 ⟨some "investigating", none⟩ [openAlert]).2).1 =
      .ok { openAlert with status := "resolved" } ∧
    (update_alert_status "analyst" 1 ⟨some "resolved", none⟩
        (update_alert_status "analyst" 1 ⟨some "investigating", none⟩ [openAlert]).2).2 =
      [{ openAlert with status := "resolved" }] :=
  ⟨rfl, rfl, rfl⟩

/-- C3 amended: `update_alert_status` has no version argument and no
optimistic-concurrency check: any two sequential status updates on the same
alert by authorized callers both succeed, and the stored row afterwards
carries only the second status (last write wins; the first write is
overwritten without any conflict being reported). -/
theorem update_alert_status_no_version_check (role : String) (i : Nat)
    (s1 s2 : String) (db : List BackAlert) (a : BackAlert)
    (hrole : role = "analyst" ∨ role = "admin")
    (hfind : db.find? (fun x => x.id == i) = some a)
    (h1 : s1 ≠ "") (h2 : s2 ≠ "") :
    (update_alert_status role i ⟨some s1, none⟩ db).1 = .ok { a with status := s1 } ∧
    (update_alert_status role i ⟨some s2, none⟩
        (update_alert_status role i ⟨some s1, none⟩ db).2).1 =
      .ok { a with status := s2 } := by
  have hauth : ¬(role ≠ "analyst" ∧ role ≠ "admin") := by
    rcases hrole with h | h <;> simp [h]
  have hb1 : (s1 == "") = false := by
    simpa using h1
  have hb2 : (s2 == "") = false := by
    simpa using h2
  have e1 := update_status_eq role i s1 db a hauth hfind hb1
  have hid : (({ a with status := s1 } : BackAlert).id == i) = true := by
    have := List.find?_some hfind
    simpa using this
  have hfind2 : (replaceById i { a with status := s1 } db).find?
      (fun x => x.id == i) = some { a with status := s1 } :=
    find?_replaceById i { a with status := s1 } db a hfind hid
  have e2 := update_status_eq role i s2 (replaceById i { a with status := s1 } db)
    { a with status := s1 } hauth hfind2 hb2
  refine ⟨by rw [e1], ?_⟩
  rw [e1]
  simpa using congrArg Prod.fst e2

/-- Witness for `update_alert_status_no_version_check`: the concrete
`open → investigating` then (stale) `open → resolved` pair on a one-row
table; both succeed. -/
theorem update_alert_status_no_version_check_witness :
    (("analyst" : String) = "analyst" ∨ ("analyst" : String) = "admin") ∧
    [openAlert].find? (fun x => x.id == 1) = some openAlert ∧
    ("investigating" : String) ≠ "" ∧ ("resolved" : String) ≠ "" ∧
    (update_alert_status "analyst" 1 ⟨some "investigating", none⟩ [openAlert]).1 =
      .ok { openAlert with status := "investigating" } :=
  ⟨Or.inl rfl, rfl, by decide, by decide,
    (update_alert_status_no_version_check "analyst" 1 "investigating" "resolved"
      [openAlert] openAlert (Or.inl rfl) rfl (by decide) (by decide)).1⟩

/-- An `investigating` alert currently assigned to an analyst. -/
def assignedAlert : BackAlert :=
  { id := 1, transaction_id := 10, banque_id := 2,
    fraud_probability := 9/10,
    message := "Transaction suspecte detectee avec une probabilite de 0.90",
    status := "investigating", assigned_to := some "Jean Dupont", date := 0 }

/-- C7 counterexample: transitioning to `open` with no `assigned_to` in the
request leaves the assignee in place (the claim says it is cleared), and
transitioning an unassigned alert to `investigating` leaves `assigned_to`
empty (the claim says it is set to the acting viewer). There is no version
field to increment and no `updatedAt` to bump. -/
theorem update_does_not_manage_assignee :
    (update_alert_status "analyst" 1 ⟨some "open", none⟩ [assignedAlert]).1 =
      .ok { assignedAlert with status := "open" } ∧
    ({ assignedAlert with status := "open" } : BackAlert).assigned_to =
      some "Jean Dupont" ∧
    (update_alert_status "analyst" 1 ⟨some "investigating", none⟩ [openAlert]).1 =
      .ok { openAlert with status := "investigating" } ∧
    ({ openAlert with status := "investigating" } : BackAlert).assigned_to = none :=
  ⟨rfl, rfl, rfl, rfl⟩

/-- C7 amended: on success the endpoint persists exactly the returned row,
and that row differs from the stored one only in the fields the request
explicitly carries: `status` when a truthy status is provided and
`assigned_to` when a truthy assignee is provided. No assignee is derived
from the acting viewer, nothing is cleared on `open`, and the row has no
version or `updatedAt` field to maintain (only the immutable creation
`date`). -/
theorem update_alert_status_touches_only_given_fields (role : String) (i : Nat)
    (upd : AlertUpdate) (db : List BackAlert) (a : BackAlert)
    (hrole : role = "analyst" ∨ role = "admin")
    (hfind : db.find? (fun x => x.id == i) = some a) :
    ∃ a1, (update_alert_status role i upd db).1 = .ok a1 ∧
      a1 ∈ (update_alert_status role i upd db).2 ∧
      a1.status = (if pyTruthy upd.status then upd.status.getD a.status else a.status) ∧
      a1.assigned_to = (if pyTruthy upd.assigned_to then upd.assigned_to else a.assigned_to) ∧
      a1.id = a.id ∧ a1.transaction_id = a.transaction_id ∧
      a1.banque_id = a.banque_id ∧ a1.fraud_probability = a.fraud_probability ∧
      a1.message = a.message ∧ a1.date = a.date := by
  have hauth : ¬(role ≠ "analyst" ∧ role ≠ "admin") := by
    rcases hrole with h | h <;> simp [h]
  refine ⟨applyAlertUpdate upd a, ?_, ?_, ?_, ?_, ?_, ?_, ?_, ?_, ?_, ?_⟩
  · unfold update_alert_status
    rw [if_neg hauth, hfind]
  · unfold update_alert_status
    rw [if_neg hauth, hfind]
    exact mem_replaceById i (applyAlertUpdate upd a) db a hfind
  all_goals
    unfold applyAlertUpdate
    cases hS : pyTruthy upd.status <;> cases hA : pyTruthy upd.assigned_to <;> simp [hS, hA]

/-- Witness for `update_alert_status_touches_only_given_fields`: the
concrete `open` transition on the assigned one-row table. -/
theorem update_alert_status_touches_only_given_fields_witness :
    (("analyst" : String) = "analyst" ∨ ("analyst" : String) = "admin") ∧
    [assignedAlert].find? (fun x => x.id == 1) = some assignedAlert ∧
    ∃ a1, (update_alert_status "analyst" 1 ⟨some "open", none⟩ [assignedAlert]).1 = .ok a1 ∧
      a1 ∈ (update_alert_status "analyst" 1 ⟨some "open", none⟩ [assignedAlert]).2 ∧
      a1.status = (if pyTruthy (some "open") then (some "open").getD assignedAlert.status
        else assignedAlert.status) ∧
      a1.assigned_to = (if pyTruthy (none : Option String) then (none : Option String)
        else assignedAlert.assigned_to) ∧
      a1.id = assignedAlert.id ∧ a1.transaction_id = assignedAlert.transaction_id ∧
      a1.banque_id = assignedAlert.banque_id ∧
      a1.fraud_probability = assignedAlert.fraud_probability ∧
      a1.message = assignedAlert.message ∧ a1.date = assignedAlert.date :=
  ⟨Or.inl rfl, rfl,
    update_alert_status_touches_only_given_fields "analyst" 1 ⟨some "open", none⟩
      [assignedAlert] assignedAlert (Or.inl rfl) rfl⟩

/-! ## Frontend alert update (src/hooks/useRealTimeData.ts, `updateAlert`)

`updateAlert` calls `alertsAPI.updateAlertStatus`; on success it replaces
the matching alert in local state with the server row, and on error it
falls back to applying the attempted edit locally:
`{ ...alert, status: status as any, assignedTo }`. -/

/-- Success branch of `updateAlert`: the server row replaces every local
alert with the same id. -/
def updateAlertOnSuccess (alerts : List FraudAlert) (alertId : String)
    (updatedAlert : FraudAlert) : List FraudAlert :=
  alerts.map (fun a => if a.id == alertId then updatedAlert else a)

/-- Error branch of `updateAlert` (the `catch`): the attempted `status` and
`assignedTo` are written into the local copy of the alert. -/
def updateAlertOnError (alerts : List FraudAlert) (alertId : String)
    (status : String) (assignedTo : Option String) : List FraudAlert :=
  alerts.map (fun a =>
    if a.id == alertId then { a with status := status, assignedTo := assignedTo } else a)

/-- C8 counterexample: when the update call fails, the attempted edit IS
silently applied to the viewer's local alert state — the stored `open`
alert is shown as `resolved` even though the server rejected or never
received the change. -/
theorem failed_update_applied_locally :
    alertBnp.status = "open" ∧
    updateAlertOnError [alertBnp] "alert_1" "resolved" none =
      [{ alertBnp with status := "resolved", assignedTo := none }] ∧
    ({ alertBnp with status := "resolved", assignedTo := none } : FraudAlert).status =
      "resolved" :=
  ⟨rfl, rfl, rfl⟩

/-- C8 amended: on failure the client does not keep or re-fetch the
authoritative state; it applies the attempted `status`/`assignedTo` to the
matching local alert (demo fallback), so the viewer sees the attempted edit
regardless of what the server holds. -/
theorem update_alert_error_applies_edit (alerts : List FraudAlert)
    (alertId status : String) (assignedTo : Option String) (a : FraudAlert)
    (ha : a ∈ alerts) (hid : a.id = alertId) :
    { a with status := status, assignedTo := assignedTo } ∈
      updateAlertOnError alerts alertId status assignedTo := by
  unfold updateAlertOnError
  have he : (if a.id == alertId
      then { a with status := status, assignedTo := assignedTo } else a) =
      { a with status := status, assignedTo := assignedTo } := by
    simp [hid]
  exact he ▸ List.mem_map_of_mem _ ha

/-- Witness for `update_alert_error_applies_edit`: the sample alert edited
to `resolved` through the error branch. -/
theorem update_alert_error_applies_edit_witness :
    alertBnp ∈ [alertBnp] ∧ alertBnp.id = "alert_1" ∧
    { alertBnp with status := "resolved", assignedTo := none } ∈
      updateAlertOnError [alertBnp] "alert_1" "resolved" none :=
  ⟨List.mem_singleton.mpr rfl, rfl,
    update_alert_error_applies_edit [alertBnp] "alert_1" "resolved" none alertBnp
      (List.mem_singleton.mpr rfl) rfl⟩

/-! ## Ingestion (bdia-BackEND/app/routers/transaction.py, `add_transaction`)

The `POST /transactions/add` handler scores the incoming event through the
external `predict_fraud` collaborator, flags it when
`fraud_score > fraud_threshold` with `fraud_threshold = 0.8`, always inserts
a new transaction row, and additionally inserts an alert row when flagged.
`predict_fraud` is an opaque external scorer, so its result is passed in as
the `fraud_score` argument. -/

/-- Incoming `TransactionCreate` payload. The full Pydantic schema file is
not among the sources; the fields kept are the ones the router and the AI
feature extraction consume (`banque_id`, `transaction_amount`,
`timestamp`). -/
structure TransactionCreate where
  banque_id : Nat
  transaction_amount : ℚ
  timestamp : Nat
  deriving Repr, DecidableEq

/-- Persisted transaction row: the incoming payload plus the computed
`is_fraud` flag and `fraud_probability`, keyed by an autoincrement id. -/
structure TransactionRec where
  id : Nat
  banque_id : Nat
  transaction_amount : ℚ
  timestamp : Nat
  is_fraud : Bool
  fraud_probability : ℚ
  deriving Repr, DecidableEq

/-- The relational store: autoincrement counters plus the `transactions`
and `alerts` tables. -/
structure Store where
  nextTransactionId : Nat
  nextAlertId : Nat
  transactions : List TransactionRec
  alerts : List BackAlert
  deriving Repr, DecidableEq

/-- The router's fraud threshold (`fraud_threshold = 0.8`). -/
def fraud_threshold : ℚ := 8/10

/-- `add_transaction`: score, flag via `fraud_score > fraud_threshold`
(strict), insert the transaction row, and insert an alert row (status
defaults to `"open"`, creation `date` is the current time) when flagged.
The decimal formatting of the score inside the alert message is elided. -/
def add_transaction (t : TransactionCreate) (fraud_score : ℚ) (now : Nat)
    (db : Store) : TransactionRec × Store :=
  let is_fraud : Bool := decide (fraud_score > fraud_threshold)
  let newTxn : TransactionRec :=
    { id := db.nextTransactionId, banque_id := t.banque_id,
      transaction_amount := t.transaction_amount, timestamp := t.timestamp,
      is_fraud := is_fraud, fraud_probability := fraud_score }
  let db1 : Store :=
    { db with nextTransactionId := db.nextTransactionId + 1,
              transactions := db.transactions ++ [newTxn] }
  if is_fraud then
    let alert : BackAlert :=
      { id := db1.nextAlertId, transaction_id := newTxn.id,
        banque_id := t.banque_id, fraud_probability := fraud_score,
        message := "Transaction suspecte detectee",
        status := "open", assigned_to := none, date := now }
    (newTxn, { db1 with nextAlertId := db1.nextAlertId + 1,
                        alerts := db1.alerts ++ [alert] })
  else
    (newTxn, db1)

/-- The empty store. -/
def emptyStore : Store :=
  { nextTransactionId := 1, nextAlertId := 1, transactions := [], alerts := [] }

/-- A sample incoming event. -/
def sampleEvent : TransactionCreate :=
  { banque_id := 2, transaction_amount := 100, timestamp := 0 }

/-- Helper: evaluation of `add_transaction` when the score exceeds the
threshold — both a transaction row and an alert row are appended. -/
theorem add_transaction_of_flagged (t : TransactionCreate) (s : ℚ) (now : Nat)
    (db : Store) (hs : s > fraud_threshold) :
    add_transaction t s now db =
      ({ id := db.nextTransactionId, banque_id := t.banque_id,
         transaction_amount := t.transaction_amount, timestamp := t.timestamp,
         is_fraud := true, fraud_probability := s },
       { nextTransactionId := db.nextTransactionId + 1,
         nextAlertId := db.nextAlertId + 1,
         transactions := db.transactions ++
           [{ id := db.nextTransactionId, banque_id := t.banque_id,
              transaction_amount := t.transaction_amount, timestamp := t.timestamp,
              is_fraud := true, fraud_probability := s }],
         alerts := db.alerts ++
           [{ id := db.nextAlertId, transaction_id := db.nextTransactionId,
              banque_id := t.banque_id, fraud_probability := s,
              message := "Transaction suspecte detectee",
              status := "open", assigned_to := none, date := now }] }) := by
  unfold add_transaction
  rw [decide_eq_true hs]
  rfl

/-- Helper: evaluation of `add_transaction` when the score does not exceed
the threshold — only the transaction row is appended; alerts are
untouched. -/
theorem add_transaction_of_not_flagged (t : TransactionCreate) (s : ℚ) (now : Nat)
    (db : Store) (hs : ¬ s > fraud_threshold) :
    add_transaction t s now db =
      ({ id := db.nextTransactionId, banque_id := t.banque_id,
         transaction_amount := t.transaction_amount, timestamp := t.timestamp,
         is_fraud := false, fraud_probability := s },
       { nextTransactionId := db.nextTransactionId + 1,
         nextAlertId := db.nextAlertId,
         transactions := db.transactions ++
           [{ id := db.nextTransactionId, banque_id := t.banque_id,
              transaction_amount := t.transaction_amount, timestamp := t.timestamp,
              is_fraud := false, fraud_probability := s }],
         alerts := db.alerts }) := by
  unfold add_transaction
  rw [decide_eq_false hs]
  rfl

/-- Helper: table sizes and counters after a flagged ingestion. -/
theorem add_transaction_flagged_lengths (t : TransactionCreate) (s : ℚ) (now : Nat)
    (db : Store) (hs : s > fraud_threshold) :
    ((add_transaction t s now db).2).transactions.length =
      db.transactions.length + 1 ∧
    ((add_transaction t s now db).2).alerts.length = db.alerts.length + 1 ∧
    ((add_transaction t s now db).2).nextTransactionId = db.nextTransactionId + 1 := by
  rw [add_transaction_of_flagged t s now db hs]
  simp

/-- C4 counterexample: ingesting the very same event payload twice inserts
two transaction rows and two alert rows — the second call mutates the store
and creates a duplicate alert instead of returning the existing one. -/
theorem double_ingest_creates_duplicates :
    ((add_transaction sampleEvent (9/10) 0
        (add_transaction sampleEvent (9/10) 0 emptyStore).2).2).transactions.length = 2 ∧
    ((add_transaction sampleEvent (9/10) 0
        (add_transaction sampleEvent (9/10) 0 emptyStore).2).2).alerts.length = 2 ∧
    (add_transaction sampleEvent (9/10) 0
        (add_transaction sampleEvent (9/10) 0 emptyStore).2).2 ≠
      (add_transaction sampleEvent (9/10) 0 emptyStore).2 := by
  have hs : (9 : ℚ)/10 > fraud_threshold := by
    unfold fraud_threshold
    norm_num
  have l1 := add_transaction_flagged_lengths sampleEvent (9/10) 0 emptyStore hs
  have l2 := add_transaction_flagged_lengths sampleEvent (9/10) 0
    (add_transaction sampleEvent (9/10) 0 emptyStore).2 hs
  have e0t : emptyStore.transactions.length = 0 := rfl
  have e0a : emptyStore.alerts.length = 0 := rfl
  refine ⟨by omega, by omega, ?_⟩
  intro hcontra
  have := congrArg (fun st => st.transactions.length) hcontra
  simp only at this
  omega

/-- C4 amended: ingestion is not idempotent. Every call on a flagged score
appends a fresh transaction row and a fresh alert row (with new
autoincrement ids), whatever the store already contains — there is no
`sourceEventId` uniqueness check and no dedup of repeated events. -/
theorem add_transaction_always_inserts (t : TransactionCreate) (s : ℚ)
    (now : Nat) (db : Store) (hs : s > fraud_threshold) :
    ((add_transaction t s now db).2).transactions.length =
      db.transactions.length + 1 ∧
    ((add_transaction t s now db).2).alerts.length = db.alerts.length + 1 ∧
    ((add_transaction t s now db).2).nextTransactionId = db.nextTransactionId + 1 :=
  add_transaction_flagged_lengths t s now db hs

/-- Witness for `add_transaction_always_inserts`: the sample event at score
0.9 on the empty store. -/
theorem add_transaction_always_inserts_witness :
    ((9 : ℚ)/10 > fraud_threshold) ∧
    ((add_transaction sampleEvent (9/10) 0 emptyStore).2).transactions.length =
      emptyStore.transactions.length + 1 ∧
    ((add_transaction sampleEvent (9/10) 0 emptyStore).2).alerts.length =
      emptyStore.alerts.length + 1 := by
  have hs : (9 : ℚ)/10 > fraud_threshold := by
    unfold fraud_threshold
    norm_num
  have h := add_transaction_always_inserts sampleEvent (9/10) 0 emptyStore hs
  exact ⟨hs, h.1, h.2.1⟩

/-! ## Mock alert generation (src/services/mockData.ts, `generateMockAlerts`)

`generateMockAlerts` keeps only transactions with `fraudProbability > 0.7`
and derives severity as
`tx.fraudProbability > 0.9 ? 'critical' : tx.fraudProbability > 0.8 ? 'high' : 'medium'`
(and analogous strict-threshold tables for `status` and
`recommendedAction`). The record assembly around these decisions (index
ids, message formatting, random `aiConfidence`) carries no logic and is not
embedded. -/

/-- Eligibility filter of `generateMockAlerts`: `tx.fraudProbability > 0.7`
(strict). -/
def mockAlertEligible (p : ℚ) : Bool :=
  decide (p > 7/10)

/-- Severity table of `generateMockAlerts` (strict thresholds). -/
def mockSeverity (p : ℚ) : String :=
  if p > 9/10 then "critical" else if p > 8/10 then "high" else "medium"

/-- Initial status table of `generateMockAlerts` (strict threshold). -/
def mockInitialStatus (p : ℚ) : String :=
  if p > 95/100 then "investigating" else "open"

/-- C5 counterexample: a score of exactly 0.5 (the claimed `low` band lower
bound) produces no alert at all — the backend creates an alert only for
scores strictly above 0.8 — and the mock severity table maps 0.92 to
`critical` where the claimed table (`high` for [0.85, 0.95)) says `high`;
moreover the tie 0.9 resolves to the lower band `high`, not upward. -/
theorem score_at_claimed_low_threshold_no_alert :
    ((add_transaction sampleEvent (1/2) 0 emptyStore).2).alerts = [] ∧
    (add_transaction sampleEvent (1/2) 0 emptyStore).1.is_fraud = false ∧
    mockSeverity (92/100) = "critical" ∧
    mockSeverity (9/10) = "high" := by
  have hs : ¬ (1 : ℚ)/2 > fraud_threshold := by
    unfold fraud_threshold
    norm_num
  rw [add_transaction_of_not_flagged sampleEvent (1/2) 0 emptyStore hs]
  refine ⟨rfl, rfl, ?_, ?_⟩
  · unfold mockSeverity
    norm_num
  · unfold mockSeverity
    norm_num

/-- C5 amended: the backend creates an alert iff the score is strictly
greater than 0.8 (there is no 0.5 `low` band and backend alerts carry no
severity), and the mock severity table uses the strict thresholds 0.9 and
0.8: ties resolve to the LOWER band (0.9 is `high`, 0.8 is `medium`) and
`critical` starts strictly above 0.9, not at 0.95. -/
theorem alert_creation_threshold (t : TransactionCreate) (s : ℚ) (now : Nat)
    (db : Store) :
    (((add_transaction t s now db).2).alerts.length = db.alerts.length + 1 ↔
      s > fraud_threshold) ∧
    (((add_transaction t s now db).2).alerts = db.alerts ↔ ¬ s > fraud_threshold) ∧
    mockSeverity (9/10) = "high" ∧ mockSeverity (8/10) = "medium" ∧
    mockSeverity (91/100) = "critical" ∧ mockAlertEligible (7/10) = false := by
  have hsev1 : mockSeverity (9/10) = "high" := by
    unfold mockSeverity
    norm_num
  have hsev2 : mockSeverity (8/10) = "medium" := by
    unfold mockSeverity
    norm_num
  have hsev3 : mockSeverity (91/100) = "critical" := by
    unfold mockSeverity
    norm_num
  have helig : mockAlertEligible (7/10) = false := by
    unfold mockAlertEligible
    norm_num
  by_cases hs : s > fraud_threshold
  · rw [add_transaction_of_flagged t s now db hs]
    refine ⟨by simpa using hs, ?_, hsev1, hsev2, hsev3, helig⟩
    simp only [hs, not_true, iff_false]
    intro hcontra
    have := congrArg List.length hcontra
    simp at this
  · rw [add_transaction_of_not_flagged t s now db hs]
    refine ⟨?_, by simpa using hs, hsev1, hsev2, hsev3, helig⟩
    simp only [hs, iff_false]
    intro hcontra
    simp at hcontra

/-! ## WebSocket push handlers (src/hooks/useRealTimeData.ts)

`handleFraudAlert` runs `setAlerts(prev => [alert, ...prev])` and
`handleNewTransaction` runs
`setTransactions(prev => [transaction, ...prev.slice(0, 99)])`. -/

/-- The client state transition for a pushed `fraudAlert` event: the alert
is prepended to the local list, unconditionally. -/
def handleFraudAlert (alert : FraudAlert) (prev : List FraudAlert) : List FraudAlert :=
  alert :: prev

/-- The client state transition for a pushed `newTransaction` event: the
transaction is prepended to the first 99 entries of the local list. -/
def handleNewTransaction (t : Transaction) (prev : List Transaction) : List Transaction :=
  t :: prev.take 99

/-- Handling a whole sequence of pushed `newTransaction` events in arrival
order, starting from an arbitrary local list. -/
def applyPushedTransactions (ts : List Transaction) (init : List Transaction) :
    List Transaction :=
  ts.foldl (fun acc t => handleNewTransaction t acc) init

/-- C6 counterexample: the pushed-alert handler keeps no version state (the
frontend alert record has no version field at all), so delivering the same
delta twice does not leave the client state identical to delivering it
once — a duplicate entry is added. -/
theorem duplicate_alert_not_ignored :
    (handleFraudAlert alertBnp (handleFraudAlert alertBnp [])).length = 2 ∧
    handleFraudAlert alertBnp (handleFraudAlert alertBnp []) ≠
      handleFraudAlert alertBnp [] := by
  refine ⟨rfl, ?_⟩
  intro hcontra
  have := congrArg List.length hcontra
  simp [handleFraudAlert] at this

/-- C6 amended: the client applies every pushed alert delta
unconditionally — it prepends it, growing the list by one with the new
alert at the head — so at-least-once delivery produces duplicate entries
rather than being idempotently ignored. -/
theorem pushed_alert_prepended_unconditionally (a : FraudAlert)
    (prev : List FraudAlert) :
    (handleFraudAlert a prev).length = prev.length + 1 ∧
    (handleFraudAlert a prev).head? = some a ∧
    handleFraudAlert a (handleFraudAlert a prev) ≠ handleFraudAlert a prev := by
  refine ⟨by simp [handleFraudAlert], rfl, ?_⟩
  intro hcontra
  have := congrArg List.length hcontra
  simp [handleFraudAlert] at this

/-- A sample pushed transaction. -/
def sampleTxn : Transaction :=
  { id := "tx_1", amount := 100, currency := "EUR",
    timestamp := "2024-01-05T00:00:00Z", fromAccount := "ACC001",
    toAccount := "ACC002", type := "transfer", status := "completed",
    riskScore := 1/10, fraudProbability := 1/10,
    location := "Paris, France", deviceInfo := "Web Browser - Chrome",
    bankId := "bnp", isBlocked := false, blockedBy := none, blockedAt := none,
    features := [] }

/-- A second sample pushed transaction. -/
def sampleTxn2 : Transaction :=
  { sampleTxn with id := "tx_2", amount := 50 }

/-- C10: after handling any non-empty sequence of pushed transactions the
local list holds at most 100 entries and its head is the most recently
received transaction. -/
theorem pushed_transactions_bounded :
    ∀ (ts : List Transaction) (init : List Transaction), ts ≠ [] →
      (applyPushedTransactions ts init).length ≤ 100 ∧
      (applyPushedTransactions ts init).head? = ts.getLast?
  | [], _, h => absurd rfl h
  | [t], init, _ => by
      constructor
      · show (t :: init.take 99).length ≤ 100
        simp only [List.length_cons, List.length_take]
        omega
      · rfl
  | t :: t2 :: rest, init, _ => by
      have ih := pushed_transactions_bounded (t2 :: rest)
        (handleNewTransaction t init) (List.cons_ne_nil t2 rest)
      constructor
      · exact ih.1
      · rw [show applyPushedTransactions (t :: t2 :: rest) init =
          applyPushedTransactions (t2 :: rest) (handleNewTransaction t init) from rfl]
        rw [ih.2]
        exact List.getLast?_cons_cons.symm

/-- Witness for `pushed_transactions_bounded`: two pushed transactions onto
an empty local list; the bound holds and the head is the second one. -/
theorem pushed_transactions_bounded_witness :
    ([sampleTxn, sampleTxn2] ≠ ([] : List Transaction)) ∧
    (applyPushedTransactions [sampleTxn, sampleTxn2] []).length ≤ 100 ∧
    (applyPushedTransactions [sampleTxn, sampleTxn2] []).head? =
      [sampleTxn, sampleTxn2].getLast? :=
  ⟨List.cons_ne_nil _ _,
    pushed_transactions_bounded [sampleTxn, sampleTxn2] [] (List.cons_ne_nil _ _)⟩

/-! ## Login fallback (src/contexts/AuthContext.tsx, `AuthProvider.login`)

When `authAPI.login` throws, the `catch` branch looks the email up in
`mockUsers`; if a user is found and the password is the fixed string
`demo123`, it stores the token `mock_token_` followed by the user id and
sets the user; otherwise it throws `Invalid credentials` and no user is
set. The modelled function returns the authenticated user and stored token
on success and `none` on the throwing path. -/

/-- The mock-authentication fallback of `AuthProvider.login`. -/
def mockLoginFallback (email password : String) : Option (User × String) :=
  match mockUsers.find? (fun u => u.email == email) with
  | some u =>
      if password == "demo123" then some (u, "mock_token_" ++ u.id) else none
  | none => none

/-- C9: the fallback login succeeds exactly when the email is one of the
built-in mock users and the password is `demo123`; on success the matched
mock user is authenticated with the token `mock_token_` plus their id, and
in every other case no user is set. -/
theorem mock_login_characterization (email password : String) :
    ((mockLoginFallback email password).isSome ↔
      (∃ u ∈ mockUsers, u.email = email) ∧ password = "demo123") ∧
    (∀ u tok, mockLoginFallback email password = some (u, tok) →
      u ∈ mockUsers ∧ u.email = email ∧ tok = "mock_token_" ++ u.id) := by
  unfold mockLoginFallback
  cases hf : mockUsers.find? (fun u => u.email == email) with
  | none =>
      constructor
      · simp only [Option.isSome_none, Bool.false_eq_true, false_iff]
        rintro ⟨⟨u, hu, he⟩, -⟩
        have hnone := List.find?_eq_none.mp hf u hu
        simp [he] at hnone
      · intro u tok h
        simp at h
  | some u =>
      have hmem : u ∈ mockUsers := List.mem_of_find?_eq_some hf
      have hemail : u.email = email := by
        have := List.find?_some hf
        simpa using this
      by_cases hp : password = "demo123"
      · subst hp
        constructor
        · simp only [beq_self_eq_true, if_true, Option.isSome_some, true_iff]
          exact ⟨⟨u, hmem, hemail⟩, trivial⟩
        · intro v tok h
          simp only [beq_self_eq_true, if_true, Option.some.injEq,
            Prod.mk.injEq] at h
          obtain ⟨hv, htok⟩ := h
          exact ⟨hv ▸ hmem, hv ▸ hemail, hv ▸ htok.symm⟩
      · have hbp : (password == "demo123") = false := by
          simpa using hp
        constructor
        · simp [hbp, hp]
        · intro v tok h
          simp [hbp] at h

end BigDefend
